import Mathlib

/-!
Verification development for `acrylamid/lib/importer.py`: a shallow
embedding of the importer pipeline (entity unescaping, HTML reconversion,
feed parsing for RSS 2.0 and Atom, fetching, and entry materialization),
with theorems checking the specification's claims against the code.

Python-level conventions used throughout the embedding:
* A Python text value that may be `None` is `Option String`.
* Raised exceptions are modelled by `Except PyErr` (or an explicit error
  component); the constructors of `PyErr` name the Python exception class
  (or, for the repository's own `InvalidSource` / `AcrylamidException`,
  carry the message built by the source).
* External effects (subprocess backends, the network, the content store's
  permalink computation) are parameters of the embedded functions.
-/

deriving instance DecidableEq for Except

namespace Importer

/-- Python exceptions that the importer raises or catches.
`invalidSource` and `acrylamid` are the repository's own exception classes
(`InvalidSource`, `AcrylamidException`); the others are Python builtins. -/
inductive PyErr where
  | invalidSource (msg : String)
  | acrylamid (msg : String)
  | attributeError
  | keyError
  | typeError
  | indexError
  | valueError
  | unicodeError
  deriving DecidableEq

/-- The stdlib table `htmlentitydefs.name2codepoint` (all 252 HTML 4
named character references), used by `unescape`.  No entry's name
contains `#`, so numeric character references never match. -/
def name2codepoint : List (String × Nat) := [
  ("AElig", 198), ("Aacute", 193), ("Acirc", 194), ("Agrave", 192), ("Alpha", 913), ("Aring", 197),
  ("Atilde", 195), ("Auml", 196), ("Beta", 914), ("Ccedil", 199), ("Chi", 935), ("Dagger", 8225),
  ("Delta", 916), ("ETH", 208), ("Eacute", 201), ("Ecirc", 202), ("Egrave", 200), ("Epsilon", 917),
  ("Eta", 919), ("Euml", 203), ("Gamma", 915), ("Iacute", 205), ("Icirc", 206), ("Igrave", 204),
  ("Iota", 921), ("Iuml", 207), ("Kappa", 922), ("Lambda", 923), ("Mu", 924), ("Ntilde", 209),
  ("Nu", 925), ("OElig", 338), ("Oacute", 211), ("Ocirc", 212), ("Ograve", 210), ("Omega", 937),
  ("Omicron", 927), ("Oslash", 216), ("Otilde", 213), ("Ouml", 214), ("Phi", 934), ("Pi", 928),
  ("Prime", 8243), ("Psi", 936), ("Rho", 929), ("Scaron", 352), ("Sigma", 931), ("THORN", 222),
  ("Tau", 932), ("Theta", 920), ("Uacute", 218), ("Ucirc", 219), ("Ugrave", 217), ("Upsilon", 933),
  ("Uuml", 220), ("Xi", 926), ("Yacute", 221), ("Yuml", 376), ("Zeta", 918), ("aacute", 225),
  ("acirc", 226), ("acute", 180), ("aelig", 230), ("agrave", 224), ("alefsym", 8501), ("alpha", 945),
  ("amp", 38), ("and", 8743), ("ang", 8736), ("aring", 229), ("asymp", 8776), ("atilde", 227),
  ("auml", 228), ("bdquo", 8222), ("beta", 946), ("brvbar", 166), ("bull", 8226), ("cap", 8745),
  ("ccedil", 231), ("cedil", 184), ("cent", 162), ("chi", 967), ("circ", 710), ("clubs", 9827),
  ("cong", 8773), ("copy", 169), ("crarr", 8629), ("cup", 8746), ("curren", 164), ("dArr", 8659),
  ("dagger", 8224), ("darr", 8595), ("deg", 176), ("delta", 948), ("diams", 9830), ("divide", 247),
  ("eacute", 233), ("ecirc", 234), ("egrave", 232), ("empty", 8709), ("emsp", 8195), ("ensp", 8194),
  ("epsilon", 949), ("equiv", 8801), ("eta", 951), ("eth", 240), ("euml", 235), ("euro", 8364),
  ("exist", 8707), ("fnof", 402), ("forall", 8704), ("frac12", 189), ("frac14", 188), ("frac34", 190),
  ("frasl", 8260), ("gamma", 947), ("ge", 8805), ("gt", 62), ("hArr", 8660), ("harr", 8596),
  ("hearts", 9829), ("hellip", 8230), ("iacute", 237), ("icirc", 238), ("iexcl", 161), ("igrave", 236),
  ("image", 8465), ("infin", 8734), ("int", 8747), ("iota", 953), ("iquest", 191), ("isin", 8712),
  ("iuml", 239), ("kappa", 954), ("lArr", 8656), ("lambda", 955), ("lang", 9001), ("laquo", 171),
  ("larr", 8592), ("lceil", 8968), ("ldquo", 8220), ("le", 8804), ("lfloor", 8970), ("lowast", 8727),
  ("loz", 9674), ("lrm", 8206), ("lsaquo", 8249), ("lsquo", 8216), ("lt", 60), ("macr", 175),
  ("mdash", 8212), ("micro", 181), ("middot", 183), ("minus", 8722), ("mu", 956), ("nabla", 8711),
  ("nbsp", 160), ("ndash", 8211), ("ne", 8800), ("ni", 8715), ("not", 172), ("notin", 8713),
  ("nsub", 8836), ("ntilde", 241), ("nu", 957), ("oacute", 243), ("ocirc", 244), ("oelig", 339),
  ("ograve", 242), ("oline", 8254), ("omega", 969), ("omicron", 959), ("oplus", 8853), ("or", 8744),
  ("ordf", 170), ("ordm", 186), ("oslash", 248), ("otilde", 245), ("otimes", 8855), ("ouml", 246),
  ("para", 182), ("part", 8706), ("permil", 8240), ("perp", 8869), ("phi", 966), ("pi", 960),
  ("piv", 982), ("plusmn", 177), ("pound", 163), ("prime", 8242), ("prod", 8719), ("prop", 8733),
  ("psi", 968), ("quot", 34), ("rArr", 8658), ("radic", 8730), ("rang", 9002), ("raquo", 187),
  ("rarr", 8594), ("rceil", 8969), ("rdquo", 8221), ("real", 8476), ("reg", 174), ("rfloor", 8971),
  ("rho", 961), ("rlm", 8207), ("rsaquo", 8250), ("rsquo", 8217), ("sbquo", 8218), ("scaron", 353),
  ("sdot", 8901), ("sect", 167), ("shy", 173), ("sigma", 963), ("sigmaf", 962), ("sim", 8764),
  ("spades", 9824), ("sub", 8834), ("sube", 8838), ("sum", 8721), ("sup", 8835), ("sup1", 185),
  ("sup2", 178), ("sup3", 179), ("supe", 8839), ("szlig", 223), ("tau", 964), ("there4", 8756),
  ("theta", 952), ("thetasym", 977), ("thinsp", 8201), ("thorn", 254), ("tilde", 732), ("times", 215),
  ("trade", 8482), ("uArr", 8657), ("uacute", 250), ("uarr", 8593), ("ucirc", 251), ("ugrave", 249),
  ("uml", 168), ("upsih", 978), ("upsilon", 965), ("uuml", 252), ("weierp", 8472), ("xi", 958),
  ("yacute", 253), ("yen", 165), ("yuml", 255), ("zeta", 950), ("zwj", 8205), ("zwnj", 8204)]

/-- If `pat` is a prefix of `cs` (character by character), return the rest
of `cs` after it. -/
def stripPre : List Char → List Char → Option (List Char)
  | [], cs => some cs
  | _ :: _, [] => none
  | p :: ps, c :: cs => if c = p then stripPre ps cs else none

/-- Try to match one HTML character reference `&name;` at the head of
`cs` (which is the text following a literal `&`): returns the referenced
character and the remaining text.  Since entity names never contain `;`,
at most one table entry can match at a given position, so the greedy
left-to-right scan below agrees with `re.sub` on the alternation pattern
built by the source. -/
def tryEntity (cs : List Char) : Option (Char × List Char) :=
  name2codepoint.findSome? fun nc =>
    match stripPre (nc.1.data ++ [';']) cs with
    | some rest => some (Char.ofNat nc.2, rest)
    | none => none

/-- Character-list worker for `unescape`: replace every occurrence of
`&name;` (for `name` in `name2codepoint`) by its character; every other
character, including an `&` that does not begin a known reference, is
copied verbatim.  The `fuel` argument only makes the recursion
structural: every recursive call consumes at least one character
(`tryEntity_length_le`), so with `fuel = cs.length` the zero-fuel case
is reached only on the empty list (see `unescapeGo_fuel_irrelevant`). -/
def unescapeGo : Nat → List Char → List Char
  | 0, cs => cs
  | fuel + 1, cs =>
    match cs with
    | [] => []
    | c :: rest =>
      if c = '&' then
        match tryEntity rest with
        | some (r, rem) => r :: unescapeGo fuel rem
        | none => c :: unescapeGo fuel rest
      else c :: unescapeGo fuel rest

/-- `unescape` (importer.py lines 32-34): substitute named HTML character
references using `name2codepoint`.  The regex alternation contains only
the entity names, so this resolves named references; anything else
(in particular numeric references `&#NNNN;`) is left unchanged. -/
def unescape (s : String) : String :=
  ⟨unescapeGo s.data.length s.data⟩

/-- Outcome of one invocation of `acrylamid.utils.system`, the repository
helper (not under src/) that pipes text through an external backend.
Modelled from the spec: a backend that raises a recoverable conversion
error (bad input, non-zero exit) signals the repository's
`AcrylamidException`, which `convert` catches and logs; a backend that is
simply unavailable (not installed / not invocable) signals `OSError`,
which `convert` silently skips. -/
inductive SysResult where
  | ok (out : String)
  | acrylamidError (msg : String)
  | osError
  deriving DecidableEq

/-- Whether a backend invocation succeeded. -/
def SysResult.succeeded : SysResult → Bool
  | .ok _ => true
  | _ => false

/-- The environment's backend runner: command and stdin to outcome. -/
def Sys : Type :=
  List String → String → SysResult

/-- The pandoc command built on importer.py line 54 (the `fmt` here is
the alias-folded format). -/
def pandocCmd (fmt : String) : List String :=
  ["pandoc", "--normalize", "-f", "html", "-t", fmt, "--strict"]

/-- Alias set folded to `markdown` (importer.py line 45). -/
def mdAliases : List String :=
  ["Markdown", "markdown", "mkdown", "md", "mkd"]

/-- Alias set folded to `rst` (importer.py line 48). -/
def rstAliases : List String :=
  ["rst", "restructuredtext", "rest", "reStructuredText"]

/-- The case/alias folding that lines 45-52 apply to `fmt`: recognized
aliases collapse to `markdown` or `rst`, anything else is left as
given. -/
def foldFmt (fmt : String) : String :=
  if mdAliases.contains fmt then "markdown"
  else if rstAliases.contains fmt then "rst"
  else fmt

/-- Models the expression `str(data.decode('utf-8'))` on line 66 under
Python 2 semantics: it succeeds exactly when the text is pure ASCII.
For non-ASCII text the implicit ASCII codec raises a `UnicodeError`
(`UnicodeEncodeError` from `str(...)` on a unicode value, or
`UnicodeDecodeError` from `.decode` on non-UTF-8 bytes), and `convert`
catches only `AcrylamidException` and `OSError`, so that error escapes. -/
def strRoundTripOk (s : String) : Bool :=
  s.data.all fun c => c.toNat < 128

/-- `s.endswith(suf)` (computable by kernel reduction, unlike
`String.endsWith`). -/
def strEndsWith (s suf : String) : Bool :=
  suf.data.isSuffixOf s.data

/-- `str.lower()` restricted to ASCII letters, which is all the format
names in play contain. -/
def pyLower (s : String) : String :=
  ⟨s.data.map fun c =>
    if 65 ≤ c.toNat && c.toNat ≤ 90 then Char.ofNat (c.toNat + 32) else c⟩

/-- Result of `convert`: the returned text (`none` models Python `None`),
the format tag, and the chain of backend commands that were attempted
(instrumentation for the claims that say no backend is invoked). -/
structure ConvOut where
  text : Option String
  tag : String
  calls : List (List String)
  deriving DecidableEq

/-- The backend loop of `convert` (importer.py lines 64-72): try each
command in order; a success returns its output with `fmt.lower()`; an
`AcrylamidException` is logged and the next command is tried; an
`OSError` is silently skipped; when the chain is exhausted the `for`
loop's `else` returns the original data with tag `html`. -/
def tryChain (sys : Sys) (s : String) (fmt : String) :
    List (List String) → List (List String) → Except PyErr ConvOut
  | [], acc => .ok ⟨some s, "html", acc⟩
  | cmd :: rest, acc =>
    if strRoundTripOk s then
      match sys cmd s with
      | .ok out => .ok ⟨some out, pyLower fmt, acc ++ [cmd]⟩
      | .acrylamidError _ => tryChain sys s fmt rest (acc ++ [cmd])
      | .osError => tryChain sys s fmt rest (acc ++ [cmd])
    else .error .unicodeError

/-- `convert` (importer.py lines 37-72).  Alias folding first, then the
pandoc command is prepended to the per-format fallback list; `fmt ==
'html'` short-circuits returning the data as-is; empty or absent data
short-circuits to `('', fmt)`; otherwise the backend chain runs.
In the source the fallback entry for markdown/rst is the bare string
`'html2text'` / `'html2rest'` rather than an argument list; we model
both command shapes as `List String`. -/
def convert (sys : Sys) (data : Option String) (fmt : String) :
    Except PyErr ConvOut :=
  let fmt2 := foldFmt fmt
  let cmds := pandocCmd fmt2 ::
    (if mdAliases.contains fmt then [["html2text"]]
     else if rstAliases.contains fmt then [["html2rest"]]
     else [])
  if fmt2 == "html" then .ok ⟨data, "html", []⟩
  else if data == none || data == some "" then .ok ⟨some "", fmt2, []⟩
  else tryChain sys (data.getD "") fmt2 cmds []

/-! ### Dates

Models of the stdlib date machinery the importer uses:
`email.utils.parsedate_tz` / `mktime_tz`, `datetime.fromtimestamp`
(parameterized by the local UTC offset of the host, in seconds) and
`datetime.strptime` with the fixed Atom format string.  The civil-date /
epoch-day conversions are the standard proleptic-Gregorian algorithms. -/

/-- A naive `datetime` value. -/
structure Dt where
  year : Int
  month : Nat
  day : Nat
  hour : Nat
  minute : Nat
  second : Nat
  deriving DecidableEq

/-- Days since 1970-01-01 of a proleptic-Gregorian civil date. -/
def daysFromCivil (y : Int) (m d : Nat) : Int :=
  let y' : Int := if m ≤ 2 then y - 1 else y
  let era : Int := y'.ediv 400
  let yoe : Int := y' - era * 400
  let mp : Int := if 2 < m then (m : Int) - 3 else (m : Int) + 9
  let doy : Int := (153 * mp + 2).ediv 5 + (d : Int) - 1
  let doe : Int := yoe * 365 + yoe.ediv 4 - yoe.ediv 100 + doy
  era * 146097 + doe - 719468

/-- Civil date (year, month, day) of a count of days since 1970-01-01. -/
def civilFromDays (z0 : Int) : Int × Nat × Nat :=
  let z := z0 + 719468
  let era := z.ediv 146097
  let doe := z - era * 146097
  let yoe := (doe - doe.ediv 1460 + doe.ediv 36524 - doe.ediv 146096).ediv 365
  let y := yoe + era * 400
  let doy := doe - (365 * yoe + yoe.ediv 4 - yoe.ediv 100)
  let mp := (5 * doy + 2).ediv 153
  let d := doy - (153 * mp + 2).ediv 5 + 1
  let m := if mp < 10 then mp + 3 else mp - 9
  ((if m ≤ 2 then y + 1 else y), m.toNat, d.toNat)

/-- `calendar.timegm` on a struct-time: epoch seconds of a UTC civil
date-time. -/
def timegm (y : Int) (mo d h mi s : Nat) : Int :=
  daysFromCivil y mo d * 86400 + h * 3600 + mi * 60 + s

/-- Civil date-time of an epoch-seconds instant (UTC wall clock). -/
def dtOfSeconds (t : Int) : Dt :=
  let days := t.ediv 86400
  let secs := (t - days * 86400).toNat
  let c := civilFromDays days
  ⟨c.1, c.2.1, c.2.2, secs / 3600, secs % 3600 / 60, secs % 60⟩

/-- The fields `email.utils.parsedate_tz` extracts: a civil date-time and
the timezone offset in seconds. -/
structure Tm where
  year : Int
  month : Nat
  day : Nat
  hour : Nat
  minute : Nat
  second : Nat
  tz : Int
  deriving DecidableEq

/-- Month names recognized by `parsedate_tz` (lower-cased comparison). -/
def monthNames : List String :=
  ["jan", "feb", "mar", "apr", "may", "jun",
   "jul", "aug", "sep", "oct", "nov", "dec"]

/-- The stdlib timezone-name table (values in "hundreds of hours", as in
`email._parseaddr._timezones`). -/
def tzNames : List (String × Int) :=
  [("UT", 0), ("UTC", 0), ("GMT", 0), ("Z", 0),
   ("AST", -400), ("ADT", -300), ("EST", -500), ("EDT", -400),
   ("CST", -600), ("CDT", -500), ("MST", -700), ("MDT", -600),
   ("PST", -800), ("PDT", -700)]

/-- Convert a `±HHMM`-style value (in hundreds) to seconds, the way
`parsedate_tz` does. -/
def tzSecondsOfHundreds (v : Int) : Int :=
  let sign : Int := if v < 0 then -1 else 1
  let a := v.natAbs
  sign * ((a / 100) * 3600 + (a % 100) * 60)

/-- A decimal digit's value, if `c` is one. -/
def digitVal (c : Char) : Option Nat :=
  if 48 ≤ c.toNat && c.toNat ≤ 57 then some (c.toNat - 48) else none

/-- Parse a non-empty all-digit string. -/
def natOfDigits : List Char → Option Nat → Option Nat
  | [], acc => acc
  | c :: cs, acc =>
    match digitVal c with
    | some v => natOfDigits cs (some ((acc.getD 0) * 10 + v))
    | none => none

/-- `int(s)` for a non-negative decimal literal. -/
def pyToNat (s : String) : Option Nat :=
  natOfDigits s.data none

/-- Split a character list at separators chosen by `p` (a computable
counterpart of `String.split`). -/
def splitChars (p : Char → Bool) : List Char → List (List Char)
  | [] => [[]]
  | c :: cs =>
    let r := splitChars p cs
    if p c then [] :: r
    else
      match r with
      | w :: ws => (c :: w) :: ws
      | [] => [[c]]

/-- Split a string at separators chosen by `p`. -/
def strSplit (s : String) (p : Char → Bool) : List String :=
  (splitChars p s.data).map fun w => (⟨w⟩ : String)

/-- Split on spaces, discarding empty fields. -/
def splitWS (s : String) : List String :=
  (strSplit s fun c => c = ' ').filter fun w => w ≠ ""

/-- `HH:MM:SS` (or `HH:MM`) of a time field. -/
def parseHMS (s : String) : Option (Nat × Nat × Nat) :=
  match (strSplit s fun c => c = ':') with
  | [hh, mm, ss] => do
    let h ← pyToNat hh
    let m ← pyToNat mm
    let sec ← pyToNat ss
    some (h, m, sec)
  | [hh, mm] => do
    let h ← pyToNat hh
    let m ← pyToNat mm
    some (h, m, 0)
  | _ => none

/-- Timezone field: a name from `tzNames` or a signed `±HHMM` offset. -/
def parseZone (s : String) : Option Int :=
  match tzNames.find? fun p => p.1 == s with
  | some p => some (tzSecondsOfHundreds p.2)
  | none =>
    match s.data with
    | '+' :: ds => (natOfDigits ds none).map fun v => tzSecondsOfHundreds (v : Int)
    | '-' :: ds => (natOfDigits ds none).map fun v => tzSecondsOfHundreds (-(v : Int))
    | _ => none

/-- `email.utils.parsedate_tz`, modelled from the stdlib for the RFC 822
shape the importer consumes: an optional `Www,` weekday, then
`DD Mon YYYY HH:MM:SS ZONE`.  Returns `none` (Python `None`) when the
string does not parse. -/
def parsedate_tz (s : String) : Option Tm :=
  let ws := splitWS s
  let ws := match ws with
    | w :: rest => if strEndsWith w "," then rest else w :: rest
    | [] => []
  match ws with
  | [dd, mon, yyyy, time, zone] => do
    let d ← pyToNat dd
    let mi ← (monthNames.findIdx? fun mn => mn == pyLower mon).map (· + 1)
    let y ← pyToNat yyyy
    let hms ← parseHMS time
    let tz ← parseZone zone
    some ⟨(y : Int), mi, d, hms.1, hms.2.1, hms.2.2, tz⟩
  | _ => none

/-- `email.utils.mktime_tz`: UTC epoch seconds of the parsed fields. -/
def mktime_tz (t : Tm) : Int :=
  timegm t.year t.month t.day t.hour t.minute t.second - t.tz

/-- The nested `parse_date_time` of `rss20` (importer.py lines 77-80):
`datetime.fromtimestamp(mktime_tz(parsedate_tz(stamp)))`, i.e. resolve
the stamp's own timezone to an absolute instant and then render that
instant on the host's local clock (`localOff` is the host's UTC offset
in seconds).  `parsedate_tz(None)` raises `AttributeError`; when the
stamp does not parse, `parsedate_tz` returns `None` and `mktime_tz(None)`
raises `TypeError`. -/
def parse_date_time (localOff : Int) (stamp : Option String) : Except PyErr Dt :=
  match stamp with
  | none => .error .attributeError
  | some s =>
    match parsedate_tz s with
    | none => .error .typeError
    | some t => .ok (dtOfSeconds (mktime_tz t + localOff))

/-- `datetime.strptime(stamp, "%Y-%m-%dT%H:%M:%SZ")` (importer.py line
170), modelled for the canonical digit widths of that format: the naive
datetime is built from the literal fields, with no timezone conversion
whatsoever.  A mismatch raises `ValueError`; `strptime(None, ...)` raises
`TypeError`. -/
def strptimeAtom (stamp : Option String) : Except PyErr Dt :=
  match stamp with
  | none => .error .typeError
  | some s =>
    match s.data with
    | [y1, y2, y3, y4, '-', m1, m2, '-', d1, d2, 'T',
       h1, h2, ':', n1, n2, ':', s1, s2, 'Z'] =>
      match (do
        let yv ← natOfDigits [y1, y2, y3, y4] none
        let mv ← natOfDigits [m1, m2] none
        let dv ← natOfDigits [d1, d2] none
        let hv ← natOfDigits [h1, h2] none
        let nv ← natOfDigits [n1, n2] none
        let sv ← natOfDigits [s1, s2] none
        some (Dt.mk (yv : Int) mv dv hv nv sv) : Option Dt) with
      | some dt => .ok dt
      | none => .error .valueError
    | _ => .error .valueError

/-! ### XML documents and the two feed schemas

`ElementTree.fromstring` is modelled by handing the feed functions an
`Option XML`: `none` stands for input on which `fromstring` raises
`ParseError` (not well-formed markup), `some tree` for the parsed root
element.  Elements carry what ElementTree exposes: tag, attributes, the
element's text (Python `None` when there is no CDATA) and the child
elements.  Both `rss20` and `atom` are Python generators; we model the
part executed up to the first `yield` (signature check and defaults) as
the outer `Except`, and the lazily-produced item stream as the list of
items yielded before the stream either ends or raises. -/

/-- An ElementTree element. -/
inductive XML where
  | elem (tag : String) (attrs : List (String × String))
      (text : Option String) (children : List XML)

/-- The element's tag. -/
def XML.tag : XML → String
  | .elem t _ _ _ => t

/-- The element's attribute list. -/
def XML.attrs : XML → List (String × String)
  | .elem _ a _ _ => a

/-- `element.text` (Python `None` when there is no CDATA). -/
def XML.text : XML → Option String
  | .elem _ _ t _ => t

/-- The element's children, in document order. -/
def XML.children : XML → List XML
  | .elem _ _ _ c => c

/-- `element.find(tag)`: the first child with the given tag, else `None`. -/
def xfind (x : XML) (tag : String) : Option XML :=
  x.children.find? fun c => c.tag == tag

/-- `element.findall(tag)`: all children with the given tag. -/
def xfindall (x : XML) (tag : String) : List XML :=
  x.children.filter fun c => c.tag == tag

/-- `element.attrib.get(k)` / `element.get(k)`. -/
def xattr (x : XML) (k : String) : Option String :=
  (x.attrs.find? fun a => a.1 == k).map fun a => a.2

/-- A normalized item as yielded by `rss20` / `atom` (the dict on
importer.py lines 117-120 and 168-171).  `title`, `link` and `content`
are the respective `.text` values and may be Python `None`. -/
structure NormItem where
  title : Option String
  link : Option String
  content : Option String
  date : Dt
  deriving DecidableEq

/-- The feed-level defaults dict, as association pairs.  Python dict
iteration order is immaterial here because the keys are distinct; we fix
the textual order of the source's dict literals. -/
abbrev Defaults : Type :=
  List (String × Option String)

/-- The item stream a generator produces after its first yield: the items
yielded, and the exception (if any) that then terminated the stream. -/
abbrev ItemStream : Type :=
  List NormItem × Option PyErr

/-- What `parse` hands back on success: the defaults record (first yield)
and the rest of the stream. -/
abbrev ParsedFeed : Type :=
  Defaults × ItemStream

/-- Run the per-item body over the `<item>`/`<entry>` elements, stopping
at the first exception (the generator dies there; earlier items were
already handed to the consumer). -/
def itemsGo (f : XML → Except PyErr NormItem) : List XML → ItemStream
  | [] => ([], none)
  | it :: rest =>
    match f it with
    | .error e => ([], some e)
    | .ok n =>
      let r := itemsGo f rest
      (n :: r.1, r.2)

/-- The intermediate `entry` dict both schemas build: for each key,
`none` means the key is absent, `some v` means the key is present with
value `v` (itself possibly Python `None`). -/
structure EntryDict where
  title : Option (Option String) := none
  date : Option (Option String) := none
  link : Option (Option String) := none
  content : Option (Option String) := none
  deriving DecidableEq

/-- Defaults extraction of `rss20` (lines 90-97): each of the three keys
is copied when the channel has the element (`AttributeError` from
`None.text` is swallowed per key); an element with no CDATA stores
Python `None`. -/
def rssDefaults (channel : XML) : Defaults :=
  (match xfind channel "title" with
   | some e => [("sitename", e.text)]
   | none => []) ++
  (match xfind channel "link" with
   | some e => [("www_root", e.text)]
   | none => []) ++
  (match xfind channel "language" with
   | some e => [("lang", e.text)]
   | none => [])

/-- The message of the RSS required-field check (lines 114-115). -/
def rssFieldMsg : String :=
  "invalid RSS 2.0 feed: provide at least title, link, content and pubDate!"

/-- Per-item body of `rss20` (lines 102-120).  Each key is assigned
inside its own try: a missing element (`AttributeError`) or
`unescape(None)` (`TypeError`, when the description element has no
CDATA) leaves the key absent.  Only `description` is unescaped.  Then
the required-field check, then the date is parsed while building the
yielded dict. -/
def rssItem (localOff : Int) (it : XML) : Except PyErr NormItem :=
  let e : EntryDict :=
    { title := (xfind it "title").map XML.text
      date := (xfind it "pubDate").map XML.text
      link := (xfind it "link").map XML.text
      content :=
        match xfind it "description" with
        | none => none
        | some el =>
          match el.text with
          | none => none
          | some s => some (some (unescape s)) }
  if e.title == none || e.date == none || e.link == none || e.content == none then
    .error (.acrylamid rssFieldMsg)
  else
    match parse_date_time localOff (e.date.getD none) with
    | .error er => .error er
    | .ok dt => .ok ⟨e.title.getD none, e.link.getD none, e.content.getD none, dt⟩

/-- `rss20` (importer.py lines 75-120), up to generator semantics (see
the section comment).  Note the signature check on line 86: it raises
`InvalidSource('no RSS 2.0 feed')` when the root tag is not `rss` OR
when the `version` attribute EQUALS `"2.0"`.  `channel` is
`tree.getchildren()[0]`, an `IndexError` when the root has no children.
`localOff` is the host's UTC offset (it reaches the items' dates through
`datetime.fromtimestamp`). -/
def rss20 (localOff : Int) (x : Option XML) : Except PyErr ParsedFeed :=
  match x with
  | none => .error (.invalidSource "no well-formed XML")
  | some tree =>
    if tree.tag != "rss" || xattr tree "version" == some "2.0" then
      .error (.invalidSource "no RSS 2.0 feed")
    else
      match tree.children with
      | [] => .error .indexError
      | channel :: _ =>
        .ok (rssDefaults channel, itemsGo (rssItem localOff) (xfindall channel "item"))

/-- The Atom namespace the source prepends to every tag (line 140). -/
def atomNS : String :=
  "\x7bhttp://www.w3.org/2005/Atom\x7d"

/-- Defaults extraction of `atom` (lines 141-145): unlike RSS these
lookups are not guarded, so a missing `title`, `id`, `author` or
`author/name` raises `AttributeError` before the first yield. -/
def atomDefaults (tree : XML) : Except PyErr Defaults :=
  match xfind tree (atomNS ++ "title") with
  | none => .error .attributeError
  | some t =>
    match xfind tree (atomNS ++ "id") with
    | none => .error .attributeError
    | some i =>
      match xfind tree (atomNS ++ "author") with
      | none => .error .attributeError
      | some a =>
        match xfind a (atomNS ++ "name") with
        | none => .error .attributeError
        | some n => .ok [("title", t.text), ("www_root", i.text), ("author", n.text)]

/-- The four assignments of the Atom item try-block (lines 153-159):
they run in order and the shared `except (AttributeError, TypeError)`
swallows the first missing element, keeping the keys assigned up to that
point. -/
def atomFields (it : XML) : EntryDict :=
  match xfind it (atomNS ++ "title") with
  | none => {}
  | some t =>
    match xfind it (atomNS ++ "updated") with
    | none => { title := some t.text }
    | some u =>
      match xfind it (atomNS ++ "link") with
      | none => { title := some t.text, date := some u.text }
      | some l =>
        match xfind it (atomNS ++ "content") with
        | none => { title := some t.text, date := some u.text, link := some l.text }
        | some c =>
          { title := some t.text, date := some u.text,
            link := some l.text, content := some c.text }

/-- The message of the Atom required-field check (lines 165-166). -/
def atomFieldMsg : String :=
  "invalid Atom feed: provide at least title, link, content and updated!"

/-- Per-item body of `atom` (lines 150-171).  Line 161 re-runs
`item.find(ns + 'content')` OUTSIDE any try: an absent content element
raises a bare `AttributeError` there, before the required-field check
can fire.  When the content element's `type` attribute (default
`"text"`) equals `"html"`, the content value is unescaped (a `KeyError`
if the key is absent, a `TypeError` via `unescape(None)` if its value is
`None`). -/
def atomItem (it : XML) : Except PyErr NormItem :=
  let e := atomFields it
  match xfind it (atomNS ++ "content") with
  | none => .error .attributeError
  | some c =>
    let afterUnescape : Except PyErr EntryDict :=
      if (xattr c "type").getD "text" == "html" then
        match e.content with
        | none => .error .keyError
        | some none => .error .typeError
        | some (some s) => .ok { e with content := some (some (unescape s)) }
      else .ok e
    match afterUnescape with
    | .error er => .error er
    | .ok e2 =>
      if e2.title == none || e2.date == none || e2.link == none || e2.content == none then
        .error (.acrylamid atomFieldMsg)
      else
        match strptimeAtom (e2.date.getD none) with
        | .error er => .error er
        | .ok dt => .ok ⟨e2.title.getD none, e2.link.getD none, e2.content.getD none, dt⟩

/-- `atom` (importer.py lines 123-171), up to generator semantics.  The
signature check accepts any root tag ending in `/2005/Atom}feed`. -/
def atom (x : Option XML) : Except PyErr ParsedFeed :=
  match x with
  | none => .error (.invalidSource "no well-formed XML")
  | some tree =>
    if !(strEndsWith tree.tag "/2005/Atom\x7dfeed") then
      .error (.invalidSource "no Atom feed")
    else
      match atomDefaults tree with
      | .error e => .error e
      | .ok ds => .ok (ds, itemsGo atomItem (xfindall tree (atomNS ++ "entry")))

/-- `parse` (importer.py lines 204-216): try `rss20` then `atom`; the
`res.next()` that runs each generator to its first yield sits inside the
try, so an `InvalidSource` raised there disqualifies that schema and is
collected; any other exception propagates.  When both schemas are
disqualified the collected reasons are joined into one
`AcrylamidException`. -/
def parse (localOff : Int) (x : Option XML) : Except PyErr ParsedFeed :=
  match rss20 localOff x with
  | .ok r => .ok r
  | .error (.invalidSource e1) =>
    match atom x with
    | .ok r => .ok r
    | .error (.invalidSource e2) =>
      .error (.acrylamid ("unable to parse source, " ++ e1 ++ "; " ++ e2))
    | .error e => .error e
  | .error e => .error e

/-! ### Fetching

`fetch` (importer.py lines 174-201) for HTTP(S) URLs.  The network is a
parameter: given the credentials attached to the request (`none` when no
`Authorization` header is added), it yields either a transport-level
`HTTPError` (whose message `fetch` re-raises as an `AcrylamidException`)
or a response with a status code and body.  The interactive
`raw_input`/`getpass` prompts are modelled by a scripted list of
credential strings (`user + ':' + passwd`), one consumed per prompt; the
recursion is on that list.  `promptScriptEnded` is a modelling artifact
only: it marks the state where Python would block on the console for yet
another credential, and no theorem relies on it. -/

/-- One network exchange. -/
inductive HttpResult where
  | httpError (msg : String)
  | response (code : Nat) (body : String)
  deriving DecidableEq

/-- Result of `fetch`: the body, a raised `AcrylamidException` message,
or the out-of-scripted-credentials marker described above. -/
inductive FetchResult where
  | ok (body : String)
  | err (msg : String)
  | promptScriptEnded
  deriving DecidableEq

/-- The HTTP branch of `fetch`.  Mirrors lines 185-201: a transport
error is re-raised as `AcrylamidException(e.msg)`; a 401 prompts and
calls `fetch` recursively but DISCARDS its return value, so control
falls through to the final `raise` on line 201; a 200 returns the body;
anything else raises `invalid status code %i, aborting.`. -/
def fetchHttp (net : Option String → HttpResult) :
    List String → Option String → FetchResult
  | prompts, auth =>
    match net auth with
    | .httpError m => .err m
    | .response code body =>
      if code = 401 then
        match prompts with
        | [] => .promptScriptEnded
        | cred :: rest =>
          match fetchHttp net rest (some cred) with
          | .ok _ => .err "invalid status code 401, aborting."
          | .err m => .err m
          | .promptScriptEnded => .promptScriptEnded
      else if code = 200 then .ok body
      else .err ("invalid status code " ++ toString code ++ ", aborting.")

/-! ### Materialization

`build` (importer.py lines 219-257).  The content store's permalink
computation (`FileEntry(tmp, conf).permalink`) and the front-matter title
escaping (`acrylamid.utils.escape`) are repository code that is not under
src/; they enter as opaque parameters:
Modelled from the spec: `ContentStore.computePermalink(draftMetadata) ->
path` derives the destination from the entry just written (here a
function of the temporary file's full content), and the title is
"escaped for safe embedding in the front-matter block" by an unspecified
pure function.  `date.strftime(conf['date_format'])` is likewise a pure
parameter.  The filesystem of final destinations is an association list
from path to content; the `mkstemp` temporary lives only as the computed
content string (`mkstemp` always yields a fresh name, and the temporary
is never renamed when the collision check fires).  Directory creation
(lines 239-242) swallows its `OSError` and directories are not otherwise
observable, so they are not modelled. -/

/-- The destination filesystem: final paths and their contents. -/
abbrev FS : Type :=
  List (String × String)

/-- `os.path.isfile`. -/
def isfile (fs : FS) (p : String) : Bool :=
  (fs.lookup p).isSome

/-- `os.path.dirname`: everything before the last `/`, else `""`. -/
def pdirname (s : String) : String :=
  match (splitChars (fun c => c = '/') s.data).reverse with
  | [] => ""
  | [_] => ""
  | _ :: rest => ⟨(List.intercalate ['/'] rest.reverse)⟩

/-- `os.path.join` for the two-argument uses in `build`. -/
def pjoin (a b : String) : String :=
  if strEndsWith a "/" || a == "" then a ++ b else a ++ "/" ++ b

/-- `urlparse.urlsplit(url).path`: strip a `scheme://host` head when
present. -/
def urlsplitPath (url : String) : String :=
  match stripPre ['/', '/'] (url.data.dropWhile fun c => c ≠ '/') with
  | some rest => ⟨rest.dropWhile fun c => c ≠ '/'⟩
  | none => url

/-- The parameters `build` consumes from its collaborators. -/
structure BuildEnv where
  sys : Sys
  escape : String → String
  strftime : Dt → String
  permalinkOf : String → String
  entriesDir : String

/-- The front-matter-plus-body content written on lines 227-234. -/
def entryContent (env : BuildEnv) (fmtArg : String) (title : String)
    (date : Dt) (permalink : Option String) (body : String) : String :=
  "---\n" ++
  "title: " ++ env.escape title ++ "\n" ++
  "date: " ++ env.strftime date ++ "\n" ++
  "filter: [" ++ fmtArg ++ ", ]\n" ++
  (match permalink with
   | some pl => "permalink: " ++ pl ++ "\n"
   | none => "") ++
  "---\n\n" ++ body

/-- The destination path `create` computes on lines 236-244:
`join(conf['entries_dir'], dirname(entry.permalink)[1:]) + '.txt'`,
where the permalink is the store's function of the entry just written. -/
def destPath (env : BuildEnv) (fmtArg : String) (t : String) (date : Dt)
    (permalink : Option String) (body : String) : String :=
  pjoin env.entriesDir
    ((pdirname (env.permalinkOf (entryContent env fmtArg t date permalink body))).drop 1)
    ++ ".txt"

/-- The nested `create` (lines 221-248): write the temporary file,
derive the destination from the store's permalink, and either raise
`AcrylamidException('Entry already exists %r' % filepath)` — leaving the
filesystem untouched — or rename into place.  `f.write(content[0])`
with a `None` conversion result raises `TypeError`; `escape(None)` on a
`None` title likewise fails before anything is renamed. -/
def create (env : BuildEnv) (fs : FS) (fmtArg : String)
    (title : Option String) (date : Dt) (conv : ConvOut)
    (permalink : Option String) : Except PyErr FS :=
  match title with
  | none => .error .typeError
  | some t =>
    match conv.text with
    | none => .error .typeError
    | some body =>
      if isfile fs (destPath env fmtArg t date permalink body) then
        .error (.acrylamid ("Entry already exists \x27" ++
          destPath env fmtArg t date permalink body ++ "\x27"))
      else
        .ok ((destPath env fmtArg t date permalink body,
          entryContent env fmtArg t date permalink body) :: fs)

/-- The permalink override of lines 252-254: only under `keep`, the
original link's URL path unless it is the feed root `/`.
`urlsplit(None)` raises `AttributeError`. -/
def itemPermalink (keep : Bool) (link : Option String) :
    Except PyErr (Option String) :=
  if keep then
    match link with
    | none => .error .attributeError
    | some l =>
      let pth := urlsplitPath l
      .ok (if pth != "/" then some pth else none)
  else .ok none

/-- One iteration of the `build` loop body (lines 252-257): permalink
override, conversion, then `create`. -/
def buildStep (env : BuildEnv) (fmtArg : String) (keep : Bool) (fs : FS)
    (it : NormItem) : Except PyErr FS :=
  match itemPermalink keep it.link with
  | .error e => .error e
  | .ok pl =>
    match convert env.sys it.content fmtArg with
    | .error e => .error e
    | .ok conv => create env fs fmtArg it.title it.date conv pl

/-- The loop of `build` (lines 250-257): items one at a time, each
converted then materialized; the first exception stops the run, leaving
everything already renamed on disk. -/
def build (env : BuildEnv) (fmtArg : String) (keep : Bool) (fs : FS) :
    List NormItem → FS × Option PyErr
  | [] => (fs, none)
  | it :: rest =>
    match buildStep env fmtArg keep fs it with
    | .error e => (fs, some e)
    | .ok fs2 => build env fmtArg keep fs2 rest

/-! ### Concrete fixtures used by the claim checks -/

/-- A childless, attributeless element. -/
def leafEl (tag : String) (txt : Option String) : XML :=
  .elem tag [] txt []

/-- A complete RSS `<item>` with all four required children. -/
def rssItemDoc : XML :=
  .elem "item" [] none
    [leafEl "title" (some "Post"),
     leafEl "link" (some "http://example.org/post"),
     leafEl "pubDate" (some "Wed, 02 Oct 2002 13:00:00 GMT"),
     leafEl "description" (some "a&amp;b")]

/-- A `<channel>` with site defaults and one complete item. -/
def rssChannelDoc : XML :=
  .elem "channel" [] none
    [leafEl "title" (some "Site"),
     leafEl "link" (some "http://example.org"),
     rssItemDoc]

/-- A well-formed RSS 2.0 document carrying `version="2.0"`. -/
def rssDocWithVersion : XML :=
  .elem "rss" [("version", "2.0")] none [rssChannelDoc]

/-- The same document without the `version` attribute. -/
def rssDocNoVersion : XML :=
  .elem "rss" [] none [rssChannelDoc]

/-- An RSS `<item>` whose title itself contains a named reference (to
observe that titles are not unescaped). -/
def rssItemAmpTitle : XML :=
  .elem "item" [] none
    [leafEl "title" (some "T&amp;T"),
     leafEl "link" (some "http://example.org/x"),
     leafEl "pubDate" (some "Wed, 02 Oct 2002 13:00:00 GMT"),
     leafEl "description" (some "q&amp;r")]

/-- The feed-level children every valid Atom fixture shares. -/
def atomFeedHead : List XML :=
  [leafEl (atomNS ++ "title") (some "Site"),
   leafEl (atomNS ++ "id") (some "http://example.org"),
   XML.elem (atomNS ++ "author") [] none [leafEl (atomNS ++ "name") (some "Author")]]

/-- An Atom `<entry>` with title, updated and link but NO content
element. -/
def atomEntryNoContent : XML :=
  .elem (atomNS ++ "entry") [] none
    [leafEl (atomNS ++ "title") (some "Post"),
     leafEl (atomNS ++ "updated") (some "2002-10-02T13:00:00Z"),
     leafEl (atomNS ++ "link") (some "http://example.org/post")]

/-- A complete Atom `<entry>` whose content has `type="html"`. -/
def atomEntryHtmlContent : XML :=
  .elem (atomNS ++ "entry") [] none
    [leafEl (atomNS ++ "title") (some "Post"),
     leafEl (atomNS ++ "updated") (some "2002-10-02T13:00:00Z"),
     leafEl (atomNS ++ "link") (some "http://example.org/post"),
     XML.elem (atomNS ++ "content") [("type", "html")] (some "x&amp;y") []]

/-- A complete Atom `<entry>` whose content has no `type` attribute. -/
def atomEntryTextContent : XML :=
  .elem (atomNS ++ "entry") [] none
    [leafEl (atomNS ++ "title") (some "Post"),
     leafEl (atomNS ++ "updated") (some "2002-10-02T13:00:00Z"),
     leafEl (atomNS ++ "link") (some "http://example.org/post"),
     XML.elem (atomNS ++ "content") [] (some "x&amp;y") []]

/-- An Atom feed document around the given entry. -/
def atomDocOf (entry : XML) : XML :=
  .elem (atomNS ++ "feed") [] none (atomFeedHead ++ [entry])

/-- The defaults record all three Atom fixtures produce. -/
def atomHeadDefaults : Defaults :=
  [("title", some "Site"), ("www_root", some "http://example.org"),
   ("author", some "Author")]

/-- A backend runner on which every command is unavailable
(`OSError`, e.g. nothing installed). -/
def sysUnavailable : Sys :=
  fun _ _ => .osError

/-- A backend runner on which exactly `pandoc -t textile` succeeds. -/
def sysTextile : Sys :=
  fun c _ => if c == pandocCmd "textile" then .ok "TEXOUT" else .osError

/-- A server that answers 401 to an unauthenticated request and 200
with a body once credentials are supplied. -/
def net401 : Option String → HttpResult :=
  fun a =>
    match a with
    | none => .response 401 ""
    | some _ => .response 200 "the feed body"

/-- A concrete materialization environment: no backends, identity
escaping, a constant date format and a constant store permalink. -/
def buildEnvW : BuildEnv :=
  ⟨sysUnavailable, id, fun _ => "2002-10-02", fun _ => "/a/b", "x"⟩

/-- A concrete normalized item for the materialization checks. -/
def buildItemW : NormItem :=
  ⟨some "T", some "http://h/p", some "c", ⟨2002, 10, 2, 13, 0, 0⟩⟩

/-! ## Helper lemmas -/

theorem stripPre_length_le :
    ∀ (ps cs r : List Char), stripPre ps cs = some r → r.length ≤ cs.length := by
  intro ps
  induction ps with
  | nil =>
    intro cs r h
    simp [stripPre] at h
    simp [h]
  | cons p ps ih =>
    intro cs r h
    cases cs with
    | nil => simp [stripPre] at h
    | cons c cs =>
      simp only [stripPre] at h
      by_cases hc : c = p
      · simp [hc] at h
        exact Nat.le_succ_of_le (ih cs r h)
      · simp [hc] at h

theorem tryEntity_length_le :
    ∀ (cs : List Char) (c : Char) (r : List Char),
      tryEntity cs = some (c, r) → r.length ≤ cs.length := by
  intro cs c r h
  unfold tryEntity at h
  rcases List.exists_of_findSome?_eq_some h with ⟨nc, _, hnc⟩
  cases hs : stripPre (nc.1.data ++ [';']) cs with
  | none => rw [hs] at hnc; simp at hnc
  | some rest =>
    rw [hs] at hnc
    simp at hnc
    rw [← hnc.2]
    exact stripPre_length_le _ _ _ hs

theorem unescapeGo_fuel_irrelevant :
    ∀ (f g : Nat) (cs : List Char), cs.length ≤ f → cs.length ≤ g →
      unescapeGo f cs = unescapeGo g cs := by
  intro f
  induction f with
  | zero =>
    intro g cs hf _
    have : cs = [] := List.eq_nil_of_length_eq_zero (Nat.le_zero.mp hf)
    subst this
    cases g <;> simp [unescapeGo]
  | succ f ih =>
    intro g cs hf hg
    cases cs with
    | nil => cases g <;> simp [unescapeGo]
    | cons c rest =>
      cases g with
      | zero => exact absurd hg (by simp)
      | succ g =>
        simp only [unescapeGo]
        have hrf : rest.length ≤ f := by simpa using hf
        have hrg : rest.length ≤ g := by simpa using hg
        by_cases hc : c = '&'
        · subst hc
          simp only [if_pos rfl]
          cases he : tryEntity rest with
          | none => simp [ih g rest hrf hrg]
          | some p =>
            obtain ⟨r, rem⟩ := p
            have hlen := tryEntity_length_le rest r rem he
            simp [ih g rem (Nat.le_trans hlen hrf) (Nat.le_trans hlen hrg)]
        · simp only [if_neg hc]
          rw [ih g rest hrf hrg]

theorem tryChain_isOk (sys : Sys) (s fmt : String) :
    ∀ (cmds acc : List (List String)), strRoundTripOk s = true →
      ∃ r, tryChain sys s fmt cmds acc = .ok r := by
  intro cmds
  induction cmds with
  | nil =>
    intro acc _
    exact ⟨_, rfl⟩
  | cons cmd rest ih =>
    intro acc hok
    simp only [tryChain, hok, if_true]
    cases sys cmd s with
    | ok out => exact ⟨_, rfl⟩
    | acrylamidError m => exact ih _ hok
    | osError => exact ih _ hok

theorem tryChain_allFail (sys : Sys) (s fmt : String)
    (hfail : ∀ c, (sys c s).succeeded = false) :
    ∀ (cmds acc : List (List String)), strRoundTripOk s = true →
      tryChain sys s fmt cmds acc = .ok ⟨some s, "html", acc ++ cmds⟩ := by
  intro cmds
  induction cmds with
  | nil =>
    intro acc _
    simp [tryChain]
  | cons cmd rest ih =>
    intro acc hok
    simp only [tryChain, hok, if_true]
    have hf := hfail cmd
    cases hc : sys cmd s with
    | ok out => rw [hc] at hf; simp [SysResult.succeeded] at hf
    | acrylamidError m =>
      rw [ih (acc ++ [cmd]) hok]
      simp
    | osError =>
      rw [ih (acc ++ [cmd]) hok]
      simp

theorem create_ok_shape (env : BuildEnv) (fs : FS) (fmtArg : String)
    (title : Option String) (date : Dt) (conv : ConvOut)
    (pl : Option String) (fs2 : FS)
    (h : create env fs fmtArg title date conv pl = .ok fs2) :
    ∃ fp tc, fs2 = (fp, tc) :: fs ∧ fs.lookup fp = none := by
  cases title with
  | none => simp [create] at h
  | some t =>
    obtain ⟨text, tag, calls⟩ := conv
    cases text with
    | none => simp [create] at h
    | some body =>
      simp only [create] at h
      by_cases hf : isfile fs (destPath env fmtArg t date pl body) = true
      · rw [if_pos hf] at h
        exact Except.noConfusion h
      · rw [if_neg hf] at h
        simp only [Except.ok.injEq] at h
        refine ⟨_, _, h.symm, ?_⟩
        have hf' := hf
        simp only [isfile] at hf'
        cases ho : List.lookup (destPath env fmtArg t date pl body) fs with
        | none => rfl
        | some v => exact absurd (by rw [ho]; rfl) hf'

theorem buildStep_ok_shape (env : BuildEnv) (fmtArg : String)
    (keep : Bool) (fs : FS) (it : NormItem) (fs2 : FS)
    (h : buildStep env fmtArg keep fs it = .ok fs2) :
    ∃ fp tc, fs2 = (fp, tc) :: fs ∧ fs.lookup fp = none := by
  unfold buildStep at h
  cases hpl : itemPermalink keep it.link with
  | error e => rw [hpl] at h; exact Except.noConfusion h
  | ok pl =>
    rw [hpl] at h
    cases hcv : convert env.sys it.content fmtArg with
    | error e => rw [hcv] at h; exact Except.noConfusion h
    | ok conv =>
      rw [hcv] at h
      exact create_ok_shape _ _ _ _ _ _ _ _ h

theorem build_preserves :
    ∀ (items : List NormItem) (env : BuildEnv) (fmtArg : String)
      (keep : Bool) (fs : FS) (p c : String),
      fs.lookup p = some c →
      ((build env fmtArg keep fs items).1).lookup p = some c := by
  intro items
  induction items with
  | nil =>
    intro env f k fs p c h
    simpa [build] using h
  | cons it rest ih =>
    intro env f k fs p c h
    simp only [build]
    cases hs : buildStep env f k fs it with
    | error e => exact h
    | ok fs2 =>
      obtain ⟨fp, tc, rfl, hnone⟩ := buildStep_ok_shape _ _ _ _ _ _ hs
      have hne : p ≠ fp := fun he => by rw [he, hnone] at h; exact Option.noConfusion h
      exact ih env f k _ p c (by simp [List.lookup, beq_eq_false_iff_ne.mpr hne, h])

/-! ## Claim checks -/

/-- C1.  The spec says a well-formed RSS 2.0 document — explicitly
including one carrying `version="2.0"` — is positively identified by the
RSS schema, with defaults then one normalized item per `<item>`, and no
fall-through to Atom.  The code's signature check (line 86) is inverted:
`or tree.attrib.get('version') == '2.0'` raises `InvalidSource` exactly
when the version attribute IS `"2.0"`, so such a document falls through
to the Atom attempt and `parse` fails; the same document WITHOUT the
attribute is accepted and yields exactly the claimed stream. -/
theorem C1_version_20_rejected_not_identified :
    parse 0 (some rssDocWithVersion) =
      .error (.acrylamid "unable to parse source, no RSS 2.0 feed; no Atom feed")
    ∧ rss20 0 (some rssDocNoVersion) =
      .ok ([("sitename", some "Site"), ("www_root", some "http://example.org")],
        ([⟨some "Post", some "http://example.org/post", some "a&b",
           ⟨2002, 10, 2, 13, 0, 0⟩⟩], none)) := by
  exact ⟨by decide, by decide⟩

/-- C2.  The spec says a 401 prompts for credentials, retries once, and
returns the body when the retry answers 200.  In the code the recursive
`fetch(url, user + ':' + passwd)` on line 197 discards its return value
(there is no `return`), so control falls through to the
`raise AcrylamidException('invalid status code %i, aborting.')` on line
201 even though the authenticated retry answered 200 with a body. -/
theorem C2_fetch_retry_body_discarded :
    net401 (some "user:passwd") = .response 200 "the feed body"
    ∧ fetchHttp net401 ["user:passwd"] none =
        .err "invalid status code 401, aborting." := by
  exact ⟨rfl, by decide⟩

/-- C3, counterexample.  On a host whose local UTC offset is +3600s the
RSS path renders the instant on the local clock (14:00) while the Atom
path keeps the literal UTC fields (13:00), so the two stamps do NOT
normalize to the same timestamp value. -/
theorem C3_counterexample_offset_host :
    parse_date_time 3600 (some "Wed, 02 Oct 2002 13:00:00 GMT") =
      .ok ⟨2002, 10, 2, 14, 0, 0⟩
    ∧ strptimeAtom (some "2002-10-02T13:00:00Z") = .ok ⟨2002, 10, 2, 13, 0, 0⟩
    ∧ (⟨2002, 10, 2, 14, 0, 0⟩ : Dt) ≠ ⟨2002, 10, 2, 13, 0, 0⟩ := by
  exact ⟨by decide, by decide, by decide⟩

/-- C3, amended.  Both stamps denote the instant 1033563600 (2002-10-02
13:00:00 UTC), but the RSS path resolves it through the host clock —
yielding that instant shifted by the host's UTC offset — while the Atom
`strptime` keeps the literal UTC wall-clock fields with no conversion.
The two agree exactly on a host whose offset is zero. -/
theorem C3_rss_local_atom_literal :
    ∀ (localOff : Int),
      parse_date_time localOff (some "Wed, 02 Oct 2002 13:00:00 GMT") =
        .ok (dtOfSeconds (1033563600 + localOff))
      ∧ strptimeAtom (some "2002-10-02T13:00:00Z") = .ok ⟨2002, 10, 2, 13, 0, 0⟩
      ∧ dtOfSeconds 1033563600 = ⟨2002, 10, 2, 13, 0, 0⟩ := by
  intro localOff
  have hp : parsedate_tz "Wed, 02 Oct 2002 13:00:00 GMT" =
      some ⟨2002, 10, 2, 13, 0, 0, 0⟩ := by decide
  have hm : mktime_tz ⟨2002, 10, 2, 13, 0, 0, 0⟩ = 1033563600 := by decide
  refine ⟨?_, by decide, by decide⟩
  simp [parse_date_time, hp, hm]

theorem C3_rss_local_atom_literal_witness :
    parse_date_time 3600 (some "Wed, 02 Oct 2002 13:00:00 GMT") =
      .ok (dtOfSeconds (1033563600 + 3600))
    ∧ strptimeAtom (some "2002-10-02T13:00:00Z") = .ok ⟨2002, 10, 2, 13, 0, 0⟩
    ∧ dtOfSeconds 1033563600 = ⟨2002, 10, 2, 13, 0, 0⟩ :=
  C3_rss_local_atom_literal 3600

/-- C4, counterexample.  `convert` is claimed never to raise on
non-empty input, but on any non-ASCII content the Python 2 expression
`str(data.decode('utf-8'))` on line 66 raises a `UnicodeError` that the
backend loop's `except` clauses do not catch (they catch only
`AcrylamidException` and `OSError`), regardless of backend
availability. -/
theorem C4_counterexample_nonascii_raises :
    convert sysUnavailable (some "café") "markdown" = .error .unicodeError
    ∧ "café" ≠ "" := by
  exact ⟨by decide, by decide⟩

/-- C4, amended.  For non-empty ASCII input `convert(html, 'markdown')`
never raises (some result is always returned, whatever the backends do),
and when every backend fails or is unavailable it returns the original
input unchanged with tag `html`, after attempting pandoc and then
html2text. -/
theorem C4_convert_markdown_total_ascii :
    ∀ (sys : Sys) (s : String), s ≠ "" → strRoundTripOk s = true →
      (∃ r, convert sys (some s) "markdown" = .ok r)
      ∧ ((∀ c, (sys c s).succeeded = false) →
          convert sys (some s) "markdown" =
            .ok ⟨some s, "html", [pandocCmd "markdown", ["html2text"]]⟩) := by
  intro sys s hne hok
  have hc : (some s == (none : Option String) || some s == some "") = false := by
    simp [hne]
  have hconv : convert sys (some s) "markdown" =
      tryChain sys s "markdown" [pandocCmd "markdown", ["html2text"]] [] := by
    show (if (some s == (none : Option String) || some s == some "") = true
          then Except.ok ⟨some "", "markdown", ([] : List (List String))⟩
          else tryChain sys s "markdown" [pandocCmd "markdown", ["html2text"]] []) = _
    rw [hc]
    simp
  constructor
  · rw [hconv]
    exact tryChain_isOk sys s "markdown" _ [] hok
  · intro hfail
    rw [hconv, tryChain_allFail sys s "markdown" hfail _ [] hok]
    rfl

theorem C4_convert_markdown_total_ascii_witness :
    convert sysUnavailable (some "sample") "markdown" =
      .ok ⟨some "sample", "html", [pandocCmd "markdown", ["html2text"]]⟩ :=
  (C4_convert_markdown_total_ascii sysUnavailable "sample" (by decide) (by decide)).2
    (fun _ => rfl)

/-- C5.  When the destination computed for an item already exists,
`build` stops with the `Entry already exists` `AcrylamidException`
before any rename: the filesystem is returned exactly as it was, so the
pre-existing file's content is untouched; and (second conjunct) a
`build` run never removes or overwrites an existing file, so entries
materialized earlier in a run survive a later item's failure. -/
theorem C5_build_collision_non_destructive :
    (∀ (env : BuildEnv) (fmtArg : String) (fs : FS) (it : NormItem)
       (rest : List NormItem) (t body tagv : String) (callsv : List (List String)),
        it.title = some t →
        convert env.sys it.content fmtArg = .ok ⟨some body, tagv, callsv⟩ →
        isfile fs (destPath env fmtArg t it.date none body) = true →
        build env fmtArg false fs (it :: rest) =
          (fs, some (.acrylamid ("Entry already exists \x27" ++
            destPath env fmtArg t it.date none body ++ "\x27"))))
    ∧ (∀ (items : List NormItem) (env : BuildEnv) (fmtArg : String)
         (keep : Bool) (fs : FS) (p c : String),
          fs.lookup p = some c →
          ((build env fmtArg keep fs items).1).lookup p = some c) := by
  constructor
  · intro env fmtArg fs it rest t body tagv callsv ht hcv hf
    have hstep : buildStep env fmtArg false fs it =
        .error (.acrylamid ("Entry already exists \x27" ++
          destPath env fmtArg t it.date none body ++ "\x27")) := by
      unfold buildStep create
      rw [show itemPermalink false it.link = .ok none from rfl, hcv, ht]
      simp [hf]
    simp [build, hstep]
  · exact build_preserves

theorem C5_build_collision_non_destructive_witness :
    build buildEnvW "markdown" false [("x/a.txt", "old")] [buildItemW] =
      ([("x/a.txt", "old")],
        some (.acrylamid ("Entry already exists \x27" ++
          destPath buildEnvW "markdown" "T" buildItemW.date none "c" ++ "\x27")))
    ∧ List.lookup "x/a.txt" [("x/a.txt", "old")] = some "old" :=
  ⟨C5_build_collision_non_destructive.1 buildEnvW "markdown" [("x/a.txt", "old")]
      buildItemW [] "T" "c" "html" [pandocCmd "markdown", ["html2text"]]
      rfl (by decide) (by decide),
   by decide⟩

/-- C6, counterexample.  `unescape` substitutes only the names of
`name2codepoint`; a numeric character reference such as `&#8217;` is
claimed to resolve to its literal character (`’`) but is in fact left
completely unchanged. -/
theorem C6_counterexample_numeric_unresolved :
    unescape "&#8217;" = "&#8217;" ∧ "&#8217;" ≠ "’" := by
  exact ⟨by decide, by decide⟩

/-- C6, amended.  `unescape` resolves named HTML character references
(numeric ones are left as-is), and in the RSS item normalization it is
applied to the `description` text only: the yielded `title` and `link`
are the raw element texts, and the date is parsed from the raw `pubDate`
text, none of them unescaped. -/
theorem C6_unescape_named_refs_content_only :
    unescape "&amp;" = "&"
    ∧ unescape "&#8217;" = "&#8217;"
    ∧ ∀ (localOff : Int) (it te pe le de : XML) (dstr cs : String) (dtv : Dt),
        xfind it "title" = some te →
        xfind it "pubDate" = some pe →
        xfind it "link" = some le →
        xfind it "description" = some de →
        pe.text = some dstr →
        de.text = some cs →
        parse_date_time localOff (some dstr) = .ok dtv →
        rssItem localOff it = .ok ⟨te.text, le.text, some (unescape cs), dtv⟩ := by
  refine ⟨by decide, by decide, ?_⟩
  intro localOff it te pe le de dstr cs dtv ht hp hl hd hpt hdt hdate
  unfold rssItem
  rw [ht, hp, hl, hd]
  simp [hpt, hdt, hdate]

theorem C6_unescape_named_refs_content_only_witness :
    rssItem 0 rssItemAmpTitle =
      .ok ⟨some "T&amp;T", some "http://example.org/x", some (unescape "q&amp;r"),
        ⟨2002, 10, 2, 13, 0, 0⟩⟩ :=
  C6_unescape_named_refs_content_only.2.2 0 rssItemAmpTitle _ _ _ _
    "Wed, 02 Oct 2002 13:00:00 GMT" "q&amp;r" ⟨2002, 10, 2, 13, 0, 0⟩
    rfl rfl rfl rfl rfl rfl (by decide)

/-- C7, counterexample.  On empty input `convert` returns the
alias-FOLDED format name, not the format as given: for the alias `md`
it answers `markdown`. -/
theorem C7_counterexample_folded_not_given :
    convert sysUnavailable (some "") "md" = .ok ⟨some "", "markdown", []⟩
    ∧ "markdown" ≠ "md" := by
  exact ⟨by decide, by decide⟩

/-- C7, amended.  On `None` or empty input `convert` invokes no backend
(the calls trace is empty) and returns `("", f)` where `f` is the
case/alias-folded target format — except when the (necessarily
unrecognized) target is `html`, in which case the input is returned
as-is (`None` stays `None`) with tag `html`. -/
theorem C7_convert_empty_no_backend :
    ∀ (sys : Sys) (d : Option String) (fmt : String),
      d = none ∨ d = some "" →
      convert sys d fmt =
        .ok (if foldFmt fmt == "html" then ⟨d, "html", []⟩
             else ⟨some "", foldFmt fmt, []⟩) := by
  intro sys d fmt hd
  unfold convert
  cases hf : (foldFmt fmt == "html") with
  | true => simp [hf]
  | false =>
    rcases hd with rfl | rfl
    · simp [hf]
    · simp [hf]

theorem C7_convert_empty_no_backend_witness :
    convert sysUnavailable (some "") "md" = .ok ⟨some "", "markdown", []⟩ := by
  have h := C7_convert_empty_no_backend sysUnavailable (some "") "md" (Or.inr rfl)
  simpa using h

/-- C8, counterexample.  For a target outside the alias sets the claim
says the input comes back unchanged with tag `html` and no backend is
attempted; in fact pandoc IS attempted with the given format (line 54
builds the pandoc command before the `fmt == 'html'` test), and if it
succeeds the result carries the converted text and the lower-cased
given format, not `html`. -/
theorem C8_counterexample_pandoc_attempted :
    convert sysTextile (some "x") "textile" =
      .ok ⟨some "TEXOUT", "textile", [pandocCmd "textile"]⟩
    ∧ "textile" ≠ "html"
    ∧ (some "TEXOUT" : Option String) ≠ some "x" := by
  exact ⟨by decide, by decide, by decide⟩

/-- C8, amended.  The alias sets do fold to `markdown`/`rst`; but an
unrecognized format (other than `html`) is left as given and pandoc is
still attempted with it on non-empty input — the input comes back
unchanged with tag `html` only when that attempt fails or pandoc is
unavailable. -/
theorem C8_unrecognized_fmt_still_tries_pandoc :
    (∀ fmt, mdAliases.contains fmt = true → foldFmt fmt = "markdown")
    ∧ (∀ fmt, rstAliases.contains fmt = true → foldFmt fmt = "rst")
    ∧ (∀ (sys : Sys) (s fmt : String),
        mdAliases.contains fmt = false → rstAliases.contains fmt = false →
        fmt ≠ "html" → s ≠ "" → strRoundTripOk s = true →
        (∀ c, (sys c s).succeeded = false) →
        convert sys (some s) fmt = .ok ⟨some s, "html", [pandocCmd fmt]⟩) := by
  refine ⟨?_, ?_, ?_⟩
  · intro fmt h
    have h' : fmt ∈ mdAliases := by simpa using h
    simp [foldFmt, h']
  · intro fmt h
    have h' : fmt ∈ rstAliases := by simpa using h
    have hm : fmt ∉ mdAliases := by
      have h2 := h'
      simp only [rstAliases, List.mem_cons, List.not_mem_nil, or_false] at h2
      rcases h2 with rfl | rfl | rfl | rfl <;> decide
    simp [foldFmt, hm, h']
  · intro sys s fmt hm hr hh hne hok hfail
    have hm' : fmt ∉ mdAliases := by simpa using hm
    have hr' : fmt ∉ rstAliases := by simpa using hr
    have hfold : foldFmt fmt = fmt := by simp [foldFmt, hm', hr']
    have hbeq : (fmt == "html") = false := beq_eq_false_iff_ne.mpr hh
    have hc : (some s == (none : Option String) || some s == some "") = false := by
      simp [hne]
    unfold convert
    simp only [hfold, hm, hr, hbeq, hc, Bool.false_eq_true, if_false,
      Option.getD_some]
    rw [tryChain_allFail sys s fmt hfail _ [] hok]
    rfl

theorem C8_unrecognized_fmt_still_tries_pandoc_witness :
    foldFmt "md" = "markdown" ∧ foldFmt "rest" = "rst"
    ∧ convert sysUnavailable (some "x") "textile" =
        .ok ⟨some "x", "html", [pandocCmd "textile"]⟩ :=
  ⟨C8_unrecognized_fmt_still_tries_pandoc.1 "md" (by decide),
   C8_unrecognized_fmt_still_tries_pandoc.2.1 "rest" (by decide),
   C8_unrecognized_fmt_still_tries_pandoc.2.2 sysUnavailable "x" "textile"
     (by decide) (by decide) (by decide) (by decide) (by decide) (fun _ => rfl)⟩

/-- C9.  When the content element is present, its text is unescaped
exactly when `type="html"` (absent `type` defaults to `text` and skips
unescaping) — second and third conjuncts.  But an entry with NO content
element crashes the stream with a bare `AttributeError` from
`item.find(ns + 'content').get(...)` on line 161, which is not the
`AcrylamidException` field-validation error the schema raises for other
missing fields (lines 164-166): the claim's required `FieldValidationError`
never fires because line 161 runs first. -/
theorem C9_absent_content_uncontrolled_error :
    atom (some (atomDocOf atomEntryNoContent)) =
      .ok (atomHeadDefaults, ([], some .attributeError))
    ∧ atom (some (atomDocOf atomEntryHtmlContent)) =
        .ok (atomHeadDefaults,
          ([⟨some "Post", some "http://example.org/post", some "x&y",
             ⟨2002, 10, 2, 13, 0, 0⟩⟩], none))
    ∧ atom (some (atomDocOf atomEntryTextContent)) =
        .ok (atomHeadDefaults,
          ([⟨some "Post", some "http://example.org/post", some "x&amp;y",
             ⟨2002, 10, 2, 13, 0, 0⟩⟩], none))
    ∧ PyErr.attributeError ≠ .acrylamid atomFieldMsg := by
  exact ⟨by decide, by decide, by decide, by decide⟩

/-- C10.  When the root tag is neither `rss` nor an Atom-namespace
`feed` — or the markup is not well-formed at all — `parse` raises one
`AcrylamidException` whose message joins the `InvalidSource` reason of
the RSS attempt and then of the Atom attempt. -/
theorem C10_parse_aggregates_both_rejections :
    (∀ (localOff : Int) (tag : String) (attrs : List (String × String))
       (txt : Option String) (ch : List XML),
        tag ≠ "rss" → strEndsWith tag "/2005/Atom\x7dfeed" = false →
        parse localOff (some (.elem tag attrs txt ch)) =
          .error (.acrylamid "unable to parse source, no RSS 2.0 feed; no Atom feed"))
    ∧ ∀ (localOff : Int),
        parse localOff none =
          .error (.acrylamid
            "unable to parse source, no well-formed XML; no well-formed XML") := by
  constructor
  · intro localOff tag attrs txt ch hrss hatom
    have h1 : rss20 localOff (some (.elem tag attrs txt ch)) =
        .error (.invalidSource "no RSS 2.0 feed") := by
      unfold rss20
      have hb : (tag != "rss") = true := by simp [hrss]
      simp [XML.tag, hb]
    have h2 : atom (some (.elem tag attrs txt ch)) =
        .error (.invalidSource "no Atom feed") := by
      unfold atom
      simp [XML.tag, hatom]
    simp [parse, h1, h2]
  · intro localOff
    rfl

theorem C10_parse_aggregates_both_rejections_witness :
    parse 0 (some (.elem "foo" [] none [])) =
      .error (.acrylamid "unable to parse source, no RSS 2.0 feed; no Atom feed")
    ∧ parse 0 none =
      .error (.acrylamid
        "unable to parse source, no well-formed XML; no well-formed XML") :=
  ⟨C10_parse_aggregates_both_rejections.1 0 "foo" [] none [] (by decide) (by decide),
   C10_parse_aggregates_both_rejections.2 0⟩

end Importer
